import Mathlib

/-!
Shallow embedding of `src/edge_script/snapshot.py` (class `SSHDownloader`).

The program is a retry-and-verify wrapper around an SSH transport
(paramiko / scp).  We embed each method as a pure Lean function over an
explicit environment describing what the transport layer does on each
attempt, an explicit session state, an explicit local-filesystem state
(the single file at `local_path`), and an explicit log trace.

Conventions:
* A Python `for attempt in range(1, self.max_retries + 1)` loop over
  `max_retries = N` attempts is embedded as structural recursion over a
  list of per-attempt environment outcomes of length `N`; the Python
  check `attempt == self.max_retries` corresponds to the tail of the
  list being empty.
* Python exception values are the inductive `PyExc`.  A bare `except
  Exception` handler catches every `PyExc` (we do not model
  `BaseException` escapes such as `KeyboardInterrupt`).
* A function that may raise returns `Except PyExc _`.
-/

namespace Snapshot

/-- Python exception values as relevant to `snapshot.py`.
`scpException` models `scp.SCPException`; `ioError` models `IOError`
(= `OSError`, what `sftp.stat` raises for a missing path); `exception`
models a bare `Exception(msg)` as raised on line 97 of the source;
`other` models any further exception class (named by its first field).
`connectionError`, `commandError` and `transferError` model the
dedicated error classes named by the spec's error taxonomy; note that
the source never defines or constructs such classes. -/
inductive PyExc where
  | scpException (msg : String)
  | ioError (msg : String)
  | exception (msg : String)
  | connectionError (msg : String)
  | commandError (msg : String)
  | transferError (msg : String)
  | other (cls msg : String)
deriving Repr, DecidableEq

/-- Predicate for `except IOError`: it catches exactly the `IOError` values. -/
def isIOError : PyExc → Bool
  | .ioError _ => true
  | _ => false

/-- Discriminator for the spec taxonomy's `ConnectionError`. -/
def isConnectionError : PyExc → Bool
  | .connectionError _ => true
  | _ => false

/-- Discriminator for the spec taxonomy's `CommandError`. -/
def isCommandError : PyExc → Bool
  | .commandError _ => true
  | _ => false

/-- Discriminator for the spec taxonomy's `TransferError`. -/
def isTransferError : PyExc → Bool
  | .transferError _ => true
  | _ => false

/-- Severity levels of the `logging` module as used by the source. -/
inductive LogLevel where
  | info
  | warning
  | error
deriving Repr, DecidableEq

/-- A log trace: the sequence of (level, message) pairs emitted. -/
abbrev Log := List (LogLevel × String)

/-- Session state of an `SSHDownloader` object: `ssh_client` is the
`self.ssh_client` reference (`none` = Python `None`; `some h` = a live
`paramiko.SSHClient` handle identified by the number `h` of the connect
attempt that created it).  `closeCalled` records, most recent first,
the handles on which `.close()` was invoked (used to state resource
discard properties). -/
structure SessState where
  ssh_client : Option Nat := none
  closeCalled : List Nat := []
deriving Repr, DecidableEq

/-- Embeds `SSHDownloader.close` (source lines 71-80).
`closeExc` is the environment's outcome for the underlying
`self.ssh_client.close()` call (`some e` = it raises `e`).
Structure of the source: `if self.ssh_client:` then
`try: close(); log info  except Exception: log error  finally:
self.ssh_client = None`.  The `except Exception` clause catches every
modelled exception, so the method returns `.ok ()` on every path. -/
def close (closeExc : Option PyExc) (s : SessState) (log : Log) :
    Except PyExc Unit × SessState × Log :=
  match s.ssh_client with
  | none => (.ok (), s, log)
  | some h =>
      let log1 : Log :=
        match closeExc with
        | none => log.concat (.info, "SSH connection closed")
        | some _ => log.concat (.error, "Error closing SSH connection")
      (.ok (), { ssh_client := none, closeCalled := h :: s.closeCalled }, log1)

/-- Result of `SSHDownloader.connect`: the outcome (`.ok ()` = the
method returned, `.error e` = it raised `e`), the final session state,
the log emitted, and how many connection attempts were performed. -/
structure ConnectResult where
  outcome : Except PyExc Unit
  state : SessState
  log : Log
  attempts : Nat
deriving Repr

/-- The retry loop of `SSHDownloader.connect` (source lines 46-69).
`attempts` holds, for each remaining loop iteration, the environment's
outcome of that attempt's `paramiko` connection sequence (`none` =
`.connect(...)` succeeds, `some e` = it raises `e`); `id` is the
1-based number of the current attempt, used as the identity of the
fresh `paramiko.SSHClient()` handle assigned to `self.ssh_client` at
the top of the `try` block; `closeEnv h` is the outcome of
`handle h .close()` should `self.close()` reach it. -/
def connectAux (closeEnv : Nat → Option PyExc) :
    List (Option PyExc) → Nat → SessState → Log → ConnectResult
  | [], _, s, log => ⟨.ok (), s, log, 0⟩
  | o :: rest, id, s, log =>
      let s1 : SessState := { s with ssh_client := some id }
      let log1 := log.concat (.info, "Attempting SSH connection")
      match o with
      | none =>
          ⟨.ok (), s1, log1.concat (.info, "SSH connection established successfully"), 1⟩
      | some e =>
          let log2 := log1.concat (.error, "SSH connection failed")
          if rest.isEmpty then
            ⟨.error e, s1, log2, 1⟩
          else
            let r0 := close (closeEnv id) s1 log2
            let r := connectAux closeEnv rest (id + 1) r0.2.1 r0.2.2
            ⟨r.outcome, r.state, r.log, r.attempts + 1⟩

/-- Embeds `SSHDownloader.connect` with `max_retries = attempts.length`,
starting from session state `s` with an empty log. -/
def connect (closeEnv : Nat → Option PyExc) (attempts : List (Option PyExc))
    (s : SessState) : ConnectResult :=
  connectAux closeEnv attempts 1 s []

/-- The characters Python's `str.strip()` removes (ASCII whitespace;
we do not model the further Unicode whitespace code points). -/
def pyIsSpace (c : Char) : Bool :=
  c == ' ' || c == '\t' || c == '\n' || c == '\r' || c == '\x0b' || c == '\x0c'

/-- Python `s.strip()`: drop leading and trailing whitespace. -/
def pyStrip (s : String) : String :=
  ⟨((s.data.dropWhile pyIsSpace).reverse.dropWhile pyIsSpace).reverse⟩

/-- Environment outcome of one `execute_command` attempt: either the
`exec_command` / channel interaction raises `e`, or the command
completes with an exit status and raw stdout / stderr text. -/
inductive ExecOutcome where
  | raises (e : PyExc)
  | completes (exitStatus : Int) (stdout stderr : String)
deriving Repr, DecidableEq

/-- The body of the `try` block of one `execute_command` attempt
(source lines 85-100): read exit status, strip stderr and log a
warning if non-empty, raise `Exception(...)` on non-zero exit status,
otherwise return the stripped stdout (or `None` when blank). -/
def execAttempt (o : ExecOutcome) (log : Log) :
    Except PyExc (Option String) × Log :=
  match o with
  | .raises e => (.error e, log)
  | .completes exitStatus stdout stderr =>
      let errors := pyStrip stderr
      let log1 :=
        if errors = "" then log
        else log.concat (.warning, "Command produced stderr output: " ++ errors)
      if exitStatus ≠ 0 then
        (.error (.exception ("Command failed with exit status " ++ toString exitStatus)),
         log1)
      else
        let output := pyStrip stdout
        (.ok (if output = "" then none else some output), log1)

/-- Result of `SSHDownloader.execute_command`: outcome (`.ok v` = the
method returned `v`, with `none` = Python `None`; `.error e` = it
raised `e`), log emitted, and number of attempts performed. -/
structure ExecResult where
  outcome : Except PyExc (Option String)
  log : Log
  attempts : Nat
deriving Repr

/-- The retry loop of `execute_command` (source lines 84-105): on an
attempt exception, log an error, re-raise on the last attempt,
otherwise sleep and retry; falling off the loop end returns `None`. -/
def executeLoop : Log → List ExecOutcome → ExecResult
  | log, [] => ⟨.ok none, log, 0⟩
  | log, o :: rest =>
      match execAttempt o log with
      | (.ok v, log1) => ⟨.ok v, log1, 1⟩
      | (.error e, log1) =>
          let log2 := log1.concat (.error, "Command execution failed")
          if rest.isEmpty then ⟨.error e, log2, 1⟩
          else
            let r := executeLoop log2 rest
            ⟨r.outcome, r.log, r.attempts + 1⟩

/-- Embeds `SSHDownloader.execute_command` with
`max_retries = outcomes.length`. -/
def execute_command (outcomes : List ExecOutcome) : ExecResult :=
  executeLoop [] outcomes

/-- Result of `sftp.stat`: the `st_mode` and `st_size` attributes. -/
structure FileStat where
  st_mode : Nat
  st_size : Nat
deriving Repr, DecidableEq

/-- Embeds `stat.S_ISREG`: the file-type bits of `st_mode` equal `S_IFREG`. -/
def S_ISREG (mode : Nat) : Bool :=
  mode &&& 0o170000 == 0o100000

/-- Environment for one `remote_file_exists` call: outcome of
`open_sftp()` (`some e` = raises), of `sftp.stat(remote_path)`, and of
the `sftp.close()` in the `finally` clause. -/
structure SftpEnv where
  openResult : Option PyExc
  statResult : Except PyExc FileStat
  closeResult : Option PyExc
deriving Repr

/-- The outer `try` body of `remote_file_exists` (source lines
110-117): open the sftp channel, then an inner
`try: stat; return S_ISREG  except IOError: return False
finally: sftp.close()`.  Python `finally` semantics: when the
`finally` clause itself raises, that exception replaces any pending
return value or exception of the inner block; a non-`IOError`
exception from `stat` propagates past the inner handler. -/
def remoteFileExistsBody (env : SftpEnv) : Except PyExc Bool :=
  match env.openResult with
  | some e => .error e
  | none =>
      let inner : Except PyExc Bool :=
        match env.statResult with
        | .ok file_stat => .ok (S_ISREG file_stat.st_mode)
        | .error e => if isIOError e then .ok false else .error e
      match env.closeResult with
      | some f => .error f
      | none => inner

/-- Embeds `SSHDownloader.remote_file_exists` (source lines 107-120): the
outer `except Exception` handler catches every modelled exception,
logs an error and returns `False`, so the method always returns a
plain boolean. -/
def remote_file_exists (env : SftpEnv) : Bool :=
  match remoteFileExistsBody env with
  | .ok b => b
  | .error _ => false

/-- Effect of one `scp.get(remote_path, local_path)` call on the local
file at `local_path`: `write s` = it (re)creates the local file with
`s` bytes (possibly a partial transfer), `keep` = it never touches the
local file (e.g. the transfer fails before opening it). -/
inductive FsEffect where
  | write (size : Nat)
  | keep
deriving Repr, DecidableEq

/-- Apply an `FsEffect` to the local-file state (`none` = no file at
`local_path`, `some s` = a file of `s` bytes). -/
def FsEffect.apply : FsEffect → Option Nat → Option Nat
  | .write s, _ => some s
  | .keep, fs => fs

/-- Environment for one `download_file` attempt: `statResult` is the
outcome of the re-stat block (`open_sftp`; `stat(remote_path).st_size`;
`close` — folded into one result, an exception anywhere in it raising
out of the block); `eff` is what the subsequent SCP transfer writes to
`local_path`; `scpExc` is an exception raised by the SCP transfer
block, raised after `eff` has happened (`none` = `scp.get` returns). -/
structure AttemptEnv where
  statResult : Except PyExc Nat
  eff : FsEffect
  scpExc : Option PyExc
deriving Repr

/-- One `download_file` attempt (the `try` body, source lines 129-157):
re-stat the remote size, transfer, then verify: if the local file
exists and its size equals the remote size, return `True`
(`.ok (some true)`); on a size mismatch delete the local file
(`os.remove`); a missing local file is also a verification failure
(`.ok none` = fall through to the retry bookkeeping); an exception
anywhere gives `.error e`, caught by the `except` clauses. -/
def downloadAttempt (a : AttemptEnv) (fs : Option Nat) :
    Except PyExc (Option Bool) × Option Nat :=
  match a.statResult with
  | .error e => (.error e, fs)
  | .ok remote_size =>
      let fs1 := a.eff.apply fs
      match a.scpExc with
      | some e => (.error e, fs1)
      | none =>
          match fs1 with
          | some local_size =>
              if local_size = remote_size then (.ok (some true), fs1)
              else (.ok none, none)
          | none => (.ok none, none)

/-- Result of `SSHDownloader.download_file`: outcome (`.ok b` = the
method returned `b`, `.error e` = it raised `e`), the final local-file
state at `local_path`, and the number of transfer attempts performed. -/
structure DownloadResult where
  outcome : Except PyExc Bool
  fs : Option Nat
  attempts : Nat
deriving Repr

/-- The retry loop of `download_file` (source lines 128-174): a
verified attempt returns `True`; a verification failure on the last
attempt returns `False` (line 160); an exception on the last attempt
is re-raised (lines 166, 171); otherwise sleep and retry; falling off
the loop end returns `False` (line 174). -/
def downloadLoop : Option Nat → List AttemptEnv → DownloadResult
  | fs, [] => ⟨.ok false, fs, 0⟩
  | fs, a :: rest =>
      match downloadAttempt a fs with
      | (.ok (some true), fs1) => ⟨.ok true, fs1, 1⟩
      | (.ok _, fs1) =>
          if rest.isEmpty then ⟨.ok false, fs1, 1⟩
          else
            let r := downloadLoop fs1 rest
            ⟨r.outcome, r.fs, r.attempts + 1⟩
      | (.error e, fs1) =>
          if rest.isEmpty then ⟨.error e, fs1, 1⟩
          else
            let r := downloadLoop fs1 rest
            ⟨r.outcome, r.fs, r.attempts + 1⟩

/-- Embeds `SSHDownloader.download_file` (source lines 122-174) with
`max_retries = attempts.length`: the precondition check via
`remote_file_exists` (environment `existsEnv`), then the retry loop;
`fs` is the local-file state at `local_path` before the call. -/
def download_file (existsEnv : SftpEnv) (attempts : List AttemptEnv)
    (fs : Option Nat) : DownloadResult :=
  if remote_file_exists existsEnv then downloadLoop fs attempts
  else ⟨.ok false, fs, 0⟩

/-- The exception an attempt's `try` body raises, if any: a failed
re-stat, else a failed SCP transfer (independent of the incoming
local-file state). -/
def attemptRaised (a : AttemptEnv) : Option PyExc :=
  match a.statResult with
  | .error e => some e
  | .ok _ => a.scpExc

/-- Execution-trace predicate: starting from local-file state `fs`,
every attempt of the list ends in a verification failure (local file
missing after transfer, or size mismatch) — defined directly by
running `downloadAttempt`. -/
def allVerifyFail : Option Nat → List AttemptEnv → Bool
  | _, [] => true
  | fs, a :: rest =>
      match downloadAttempt a fs with
      | (.ok none, fs1) => allVerifyFail fs1 rest
      | _ => false

/-- Execution-trace predicate: starting from local-file state `fs`, no
attempt of the list passes verification (each one either fails
verification or raises). -/
def noSuccess : Option Nat → List AttemptEnv → Bool
  | _, [] => true
  | fs, a :: rest =>
      match downloadAttempt a fs with
      | (.ok (some true), _) => false
      | (_, fs1) => noSuccess fs1 rest

/-- The local-file state after running a list of attempts from `fs`
(threading `downloadAttempt`). -/
def fsAfter : Option Nat → List AttemptEnv → Option Nat
  | fs, [] => fs
  | fs, a :: rest => fsAfter (downloadAttempt a fs).2 rest

/-- The exception one `execute_command` attempt ends in, if any: either
the attempt's own exception, or the `Exception` constructed on line 97
of the source for a non-zero exit status. -/
def execFailureExc : ExecOutcome → Option PyExc
  | .raises e => some e
  | .completes exitStatus _ _ =>
      if exitStatus ≠ 0 then
        some (.exception ("Command failed with exit status " ++ toString exitStatus))
      else none

/-! ### Auxiliary lemmas -/

lemma isEmpty_append_cons {α : Type} (l : List α) (x : α) (t : List α) :
    (l ++ x :: t).isEmpty = false := by
  cases l <;> rfl

lemma connectAux_fail_last (closeEnv : Nat → Option PyExc) :
    ∀ (pre : List (Option PyExc)) (e : PyExc) (id : Nat) (s : SessState) (log : Log),
      (∀ o ∈ pre, o.isSome) →
      (connectAux closeEnv (pre ++ [some e]) id s log).outcome = Except.error e ∧
      (connectAux closeEnv (pre ++ [some e]) id s log).attempts = pre.length + 1 ∧
      (connectAux closeEnv (pre ++ [some e]) id s log).state =
        ⟨some (id + pre.length), (List.range' id pre.length).reverse ++ s.closeCalled⟩
  | [], e, id, s, log, _ => by
      refine ⟨rfl, rfl, ?_⟩
      simp [connectAux]
  | none :: pre', e, id, s, log, h =>
      absurd (h none (List.mem_cons_self _ _)) (by simp)
  | some e' :: pre', e, id, s, log, h => by
      have hpre' : ∀ o ∈ pre', o.isSome := fun o ho => h o (List.mem_cons_of_mem _ ho)
      have hne : (pre' ++ [some e]).isEmpty = false := isEmpty_append_cons _ _ _
      have hclose : ∀ (ce : Option PyExc) (cc : List Nat) (L : Log),
          (close ce ⟨some id, cc⟩ L).2.1 = ⟨none, id :: cc⟩ := by
        intro ce cc L; cases ce <;> rfl
      obtain ⟨h1, h2, h3⟩ := connectAux_fail_last closeEnv pre' e (id + 1)
        ⟨none, id :: s.closeCalled⟩
        ((close (closeEnv id) ⟨some id, s.closeCalled⟩
          (((log.concat (.info, "Attempting SSH connection")).concat
            (.error, "SSH connection failed")))).2.2) hpre'
      simp only [List.concat_eq_append, List.append_assoc, List.singleton_append] at h1 h2 h3
      refine ⟨?_, ?_, ?_⟩
      · simpa [connectAux, hne, hclose] using h1
      · simp [connectAux, hne, hclose, h2]
      · simp [connectAux, hne, hclose, h3, List.range'_succ, Nat.add_comm,
          Nat.add_left_comm, Nat.add_assoc]

lemma connectAux_success (closeEnv : Nat → Option PyExc) :
    ∀ (pre : List (Option PyExc)) (post : List (Option PyExc)) (id : Nat)
      (s : SessState) (log : Log),
      (∀ o ∈ pre, o.isSome) →
      (connectAux closeEnv (pre ++ none :: post) id s log).outcome = Except.ok () ∧
      (connectAux closeEnv (pre ++ none :: post) id s log).attempts = pre.length + 1 ∧
      (connectAux closeEnv (pre ++ none :: post) id s log).state.ssh_client =
        some (id + pre.length)
  | [], post, id, s, log, _ => by
      refine ⟨rfl, rfl, ?_⟩
      simp [connectAux]
  | none :: pre', post, id, s, log, h =>
      absurd (h none (List.mem_cons_self _ _)) (by simp)
  | some e' :: pre', post, id, s, log, h => by
      have hpre' : ∀ o ∈ pre', o.isSome := fun o ho => h o (List.mem_cons_of_mem _ ho)
      have hne : (pre' ++ none :: post).isEmpty = false := isEmpty_append_cons _ _ _
      have hclose : ∀ (ce : Option PyExc) (cc : List Nat) (L : Log),
          (close ce ⟨some id, cc⟩ L).2.1 = ⟨none, id :: cc⟩ := by
        intro ce cc L; cases ce <;> rfl
      obtain ⟨h1, h2, h3⟩ := connectAux_success closeEnv pre' post (id + 1)
        ⟨none, id :: s.closeCalled⟩
        ((close (closeEnv id) ⟨some id, s.closeCalled⟩
          (((log.concat (.info, "Attempting SSH connection")).concat
            (.error, "SSH connection failed")))).2.2) hpre'
      simp only [List.concat_eq_append, List.append_assoc, List.singleton_append] at h1 h2 h3
      refine ⟨?_, ?_, ?_⟩
      · simpa [connectAux, hne, hclose] using h1
      · simp [connectAux, hne, hclose, h2]
      · simp [connectAux, hne, hclose, h3, Nat.add_comm, Nat.add_left_comm,
          Nat.add_assoc]

/-! ### Claim theorems: connection lifecycle -/

/-- C2: for `max_retries = N ≥ 1`, if every connection attempt fails,
`connect()` raises after exactly `N` attempts (an `(N+1)`-th attempt is
never performed, the loop having only `N` iterations); if the
connection succeeds on attempt `k = pre.length + 1 ≤ N` (after `k - 1`
failures), `connect()` performs exactly `k` attempts and returns. -/
theorem connect_attempt_counts (closeEnv : Nat → Option PyExc) (s : SessState)
    (attempts pre post : List (Option PyExc)) (hN : 1 ≤ attempts.length) :
    ((∀ o ∈ attempts, o.isSome) →
        (connect closeEnv attempts s).attempts = attempts.length ∧
        (connect closeEnv attempts s).outcome ≠ Except.ok ()) ∧
    (attempts = pre ++ none :: post → (∀ o ∈ pre, o.isSome) →
        (connect closeEnv attempts s).attempts = pre.length + 1 ∧
        (connect closeEnv attempts s).outcome = Except.ok ()) := by
  constructor
  · intro hall
    rcases List.eq_nil_or_concat attempts with h | ⟨L, b, rfl⟩
    · subst h; simp at hN
    · obtain ⟨e, rfl⟩ := Option.isSome_iff_exists.mp (hall b (by simp))
      simp only [List.concat_eq_append] at hN hall ⊢
      have hL : ∀ o ∈ L, o.isSome := fun o ho => hall o (by simp [ho])
      obtain ⟨h1, h2, _⟩ := connectAux_fail_last closeEnv L e 1 s [] hL
      refine ⟨by simpa [connect] using h2, ?_⟩
      rw [connect, h1]; simp
  · rintro rfl hpre
    obtain ⟨h1, h2, _⟩ := connectAux_success closeEnv pre post 1 s [] hpre
    exact ⟨h2, h1⟩

/-- Witness for `connect_attempt_counts` at a concrete input:
three allowed attempts, the first fails, the second succeeds. -/
theorem connect_attempt_counts_witness :
    (connect (fun _ => none) [some (PyExc.exception "t"), none, none] {}).attempts = 2 ∧
    (connect (fun _ => none) [some (PyExc.exception "t"), none, none] {}).outcome
      = Except.ok () :=
  (connect_attempt_counts (fun _ => none) {} [some (PyExc.exception "t"), none, none]
    [some (PyExc.exception "t")] [none] (by simp)).2 rfl (by simp)

/-- C9 counterexample: with `max_retries = 1` and the single connection
attempt failing, `connect()` propagates the failure while the failed
handle (number 1) is still referenced by `ssh_client` and `.close()`
was never invoked on it — the final attempt's failed handle is not
discarded, contradicting the claim that the discard also happens on
the final attempt. -/
theorem connect_final_attempt_retained :
    (connect (fun _ => none) [some (PyExc.exception "refused")] {}).outcome
      = Except.error (PyExc.exception "refused") ∧
    (connect (fun _ => none) [some (PyExc.exception "refused")] {}).state.ssh_client
      = some 1 ∧
    (connect (fun _ => none) [some (PyExc.exception "refused")] {}).state.closeCalled
      = [] :=
  ⟨rfl, rfl, rfl⟩

/-- C9 amended: when every connection attempt fails, each non-final
failed attempt's handle is discarded (closed via `self.close()`, which
also clears the reference) before the next attempt begins, but the
final attempt's failed handle is retained: `ssh_client` still holds it
when the exception propagates, and `.close()` was invoked exactly on
handles `1 .. N-1`, not on handle `N`. -/
theorem connect_discards_nonfinal (closeEnv : Nat → Option PyExc)
    (attempts : List (Option PyExc)) (hne : attempts ≠ [])
    (hfail : ∀ o ∈ attempts, o.isSome) :
    (connect closeEnv attempts {}).state.ssh_client = some attempts.length ∧
    (∀ i, 1 ≤ i → i < attempts.length →
        i ∈ (connect closeEnv attempts {}).state.closeCalled) ∧
    attempts.length ∉ (connect closeEnv attempts {}).state.closeCalled := by
  rcases List.eq_nil_or_concat attempts with h | ⟨L, b, rfl⟩
  · exact absurd h hne
  · obtain ⟨e, rfl⟩ := Option.isSome_iff_exists.mp (hfail b (by simp))
    simp only [List.concat_eq_append] at hfail ⊢
    obtain ⟨-, -, h3⟩ := connectAux_fail_last closeEnv L e 1 {} []
      (fun o ho => hfail o (by simp [ho]))
    rw [connect] at *
    refine ⟨?_, ?_, ?_⟩
    · rw [h3]; simp [Nat.add_comm]
    · intro i h1i h2i
      rw [h3]
      simp only [List.length_append, List.length_cons, List.length_nil] at h2i
      simp [List.mem_range'_1]
      omega
    · rw [h3]
      simp [List.mem_range'_1]
      omega

/-- Witness for `connect_discards_nonfinal` at a concrete input: two
attempts, both failing. -/
theorem connect_discards_nonfinal_witness :
    (connect (fun _ => none)
      [some (PyExc.exception "e1"), some (PyExc.exception "e2")] {}).state.ssh_client
      = some 2 :=
  (connect_discards_nonfinal (fun _ => none)
    [some (PyExc.exception "e1"), some (PyExc.exception "e2")] (by simp) (by simp)).1

/-- C7: `close()` never raises (the `except Exception` handler swallows
any shutdown error), is a no-op on a never-connected (or already
closed) session, clears `ssh_client` to the disconnected state on
every call, is idempotent (a second call in a row does not change the
state), and a shutdown error is logged at error level instead of being
propagated. -/
theorem close_safe (closeExc : Option PyExc) (s : SessState) (log : Log) :
    (close closeExc s log).1 = Except.ok () ∧
    (close closeExc s log).2.1.ssh_client = none ∧
    (s.ssh_client = none →
        (close closeExc s log).2.1 = s ∧ (close closeExc s log).2.2 = log) ∧
    (∀ exc2 log2,
        (close exc2 (close closeExc s log).2.1 log2).2.1 = (close closeExc s log).2.1) ∧
    (∀ e h, closeExc = some e → s.ssh_client = some h →
        (close closeExc s log).2.2
          = log.concat (LogLevel.error, "Error closing SSH connection")) := by
  rcases s with ⟨sc, cc⟩
  rcases sc with _ | hdl
  · refine ⟨rfl, rfl, ?_, ?_, ?_⟩
    · intro _; exact ⟨rfl, rfl⟩
    · intro exc2 log2; rfl
    · intro e h hce hsc; cases hsc
  · refine ⟨?_, ?_, ?_, ?_, ?_⟩
    · cases closeExc <;> rfl
    · cases closeExc <;> rfl
    · intro hsc; cases hsc
    · intro exc2 log2; rfl
    · intro e h hce hsc; subst hce; rfl

/-- Witness for `close_safe` at a concrete input: a connected session
whose handle's shutdown raises; the error is logged, not propagated. -/
theorem close_safe_witness :
    (close (some (PyExc.exception "shutdown failed")) ⟨some 1, []⟩ []).2.2
      = [(LogLevel.error, "Error closing SSH connection")] :=
  (close_safe (some (PyExc.exception "shutdown failed")) ⟨some 1, []⟩ []).2.2.2.2
    (PyExc.exception "shutdown failed") 1 rfl rfl

/-- C10: with `max_retries = 0` every retry loop performs zero
attempts and falls through silently: `connect()` returns normally with
the session state untouched (still disconnected) and nothing raised;
`execute_command()` returns `None` without executing anything; and
`download_file()` returns `False` after the existence check, with the
local file untouched and zero transfer attempts, whatever the
existence check says. -/
theorem zero_retries_silent (closeEnv : Nat → Option PyExc) (s : SessState)
    (existsEnv : SftpEnv) (fs : Option Nat) :
    connect closeEnv [] s = ⟨Except.ok (), s, [], 0⟩ ∧
    execute_command [] = ⟨Except.ok none, [], 0⟩ ∧
    download_file existsEnv [] fs = ⟨Except.ok false, fs, 0⟩ := by
  refine ⟨rfl, rfl, ?_⟩
  unfold download_file
  split <;> rfl

/-! ### Auxiliary lemmas: command execution -/

lemma execAttempt_error (o : ExecOutcome) (e : PyExc) (h : execFailureExc o = some e)
    (log : Log) : (execAttempt o log).1 = Except.error e := by
  cases o with
  | raises e' =>
      simp [execFailureExc] at h
      simp [execAttempt, h]
  | completes st out err =>
      by_cases hst : st = 0
      · simp [execFailureExc, hst] at h
      · simp [execFailureExc, hst] at h
        simp [execAttempt, hst, h]

lemma execAttempt_zero_exit (out err : String) (log : Log) :
    execAttempt (.completes 0 out err) log
      = (Except.ok (if pyStrip out = "" then none else some (pyStrip out)),
         if pyStrip err = "" then log
         else log.concat (.warning, "Command produced stderr output: " ++ pyStrip err)) := by
  simp [execAttempt]

lemma executeLoop_fail_last :
    ∀ (pre : List ExecOutcome) (o : ExecOutcome) (e : PyExc) (log : Log),
      (∀ x ∈ pre, (execFailureExc x).isSome) → execFailureExc o = some e →
      (executeLoop log (pre ++ [o])).outcome = Except.error e ∧
      (executeLoop log (pre ++ [o])).attempts = pre.length + 1
  | [], o, e, log, _, ho => by
      have h1 := execAttempt_error o e ho log
      rcases hE : execAttempt o log with ⟨r1, r2⟩
      rw [hE] at h1
      subst h1
      simp [executeLoop, hE]
  | x :: pre', o, e, log, h, ho => by
      obtain ⟨ex, hx⟩ := Option.isSome_iff_exists.mp (h x (List.mem_cons_self _ _))
      have h1 := execAttempt_error x ex hx log
      rcases hE : execAttempt x log with ⟨r1, r2⟩
      rw [hE] at h1
      subst h1
      have hne : (pre' ++ [o]).isEmpty = false := isEmpty_append_cons _ _ _
      have ih := executeLoop_fail_last pre' o e
        (r2.concat (.error, "Command execution failed"))
        (fun y hy => h y (List.mem_cons_of_mem _ hy)) ho
      simp only [List.concat_eq_append] at ih
      simp [executeLoop, hE, hne, ih.1, ih.2]

lemma executeLoop_zero_exit :
    ∀ (pre : List ExecOutcome) (out err : String) (post : List ExecOutcome) (log : Log),
      (∀ x ∈ pre, (execFailureExc x).isSome) →
      (executeLoop log (pre ++ .completes 0 out err :: post)).outcome
        = Except.ok (if pyStrip out = "" then none else some (pyStrip out)) ∧
      (executeLoop log (pre ++ .completes 0 out err :: post)).attempts = 1 + pre.length ∧
      (pyStrip err ≠ "" →
        (LogLevel.warning, "Command produced stderr output: " ++ pyStrip err)
          ∈ (executeLoop log (pre ++ .completes 0 out err :: post)).log)
  | [], out, err, post, log, _ => by
      refine ⟨?_, ?_, ?_⟩
      · simp [executeLoop, execAttempt_zero_exit]
      · simp [executeLoop, execAttempt_zero_exit]
      · intro hpe
        simp [executeLoop, execAttempt_zero_exit, hpe]
  | x :: pre', out, err, post, log, h => by
      obtain ⟨ex, hx⟩ := Option.isSome_iff_exists.mp (h x (List.mem_cons_self _ _))
      have h1 := execAttempt_error x ex hx log
      rcases hE : execAttempt x log with ⟨r1, r2⟩
      rw [hE] at h1
      subst h1
      have hne : (pre' ++ ExecOutcome.completes 0 out err :: post).isEmpty = false :=
        isEmpty_append_cons _ _ _
      have ih := executeLoop_zero_exit pre' out err post
        (r2.concat (.error, "Command execution failed"))
        (fun y hy => h y (List.mem_cons_of_mem _ hy))
      simp only [List.concat_eq_append] at ih
      refine ⟨?_, ?_, ?_⟩
      · simp [executeLoop, hE, hne, ih.1]
      · simp [executeLoop, hE, hne, ih.2.1]
        omega
      · intro hpe
        simp [executeLoop, hE, hne]
        exact ih.2.2 hpe

/-! ### Claim theorems: command execution -/

/-- C8: when an `execute_command` attempt completes with exit status 0
(after any number of failing attempts), the method returns the
stripped stdout string, or `None` when stdout strips to blank; a
non-empty (stripped) stderr on that attempt is logged at warning level
and does not by itself make the attempt fail — the outcome is still a
normal return. -/
theorem execute_zero_exit_returns_stdout (pre post : List ExecOutcome)
    (out err : String) (hpre : ∀ x ∈ pre, (execFailureExc x).isSome) :
    (execute_command (pre ++ .completes 0 out err :: post)).outcome
      = Except.ok (if pyStrip out = "" then none else some (pyStrip out)) ∧
    (pyStrip err ≠ "" →
      (LogLevel.warning, "Command produced stderr output: " ++ pyStrip err)
        ∈ (execute_command (pre ++ .completes 0 out err :: post)).log) := by
  obtain ⟨h1, -, h3⟩ := executeLoop_zero_exit pre out err post [] hpre
  exact ⟨h1, h3⟩

/-- Witness for `execute_zero_exit_returns_stdout`: the spec scenario
where the command returns exit status 0 with stdout `"ok\n"` (and some
stderr noise): the method returns `"ok"` and logs the warning. -/
theorem execute_zero_exit_returns_stdout_witness :
    (execute_command [ExecOutcome.completes 0 "ok\n" "warn"]).outcome
      = Except.ok (some "ok") ∧
    (LogLevel.warning, "Command produced stderr output: warn")
      ∈ (execute_command [ExecOutcome.completes 0 "ok\n" "warn"]).log :=
  ⟨by
    have h := (execute_zero_exit_returns_stdout [] [] "ok\n" "warn" (by simp)).1
    simpa using h,
   by
    have h := (execute_zero_exit_returns_stdout [] [] "ok\n" "warn" (by simp)).2
    simpa using h (by decide)⟩

/-- C3 counterexample: with `max_retries = 1`, a command whose single
attempt completes with exit status 1 makes `execute_command` raise the
generic `Exception("Command failed with exit status 1")` built on line
97 of the source — not a `CommandError`, which the source never
defines or raises; the spec's dedicated error taxonomy does not match
the code. -/
theorem exhausted_command_error_not_taxonomy :
    (execute_command [ExecOutcome.completes 1 "" ""]).outcome
      = Except.error (PyExc.exception "Command failed with exit status 1") ∧
    isCommandError (PyExc.exception "Command failed with exit status 1") = false :=
  ⟨rfl, rfl⟩

/-! ### Auxiliary lemmas: file transfer -/

lemma downloadAttempt_raised (a : AttemptEnv) (e : PyExc) (fs : Option Nat)
    (h : attemptRaised a = some e) : (downloadAttempt a fs).1 = Except.error e := by
  rcases a with ⟨st, eff, exc⟩
  rcases st with e' | rs
  · simp [attemptRaised] at h
    subst h
    rfl
  · simp [attemptRaised] at h
    subst h
    simp [downloadAttempt]

lemma downloadAttempt_ok_none_snd (a : AttemptEnv) (fs : Option Nat)
    (h : (downloadAttempt a fs).1 = Except.ok none) : (downloadAttempt a fs).2 = none := by
  rcases a with ⟨st, eff, exc⟩
  rcases st with e' | rs
  · simp [downloadAttempt] at h
  · rcases exc with _ | e
    · rcases hfs : eff.apply fs with _ | ls
      · simp [downloadAttempt, hfs]
      · by_cases hls : ls = rs
        · simp [downloadAttempt, hfs, hls] at h
        · simp [downloadAttempt, hfs, hls]
    · simp [downloadAttempt] at h

lemma downloadAttempt_not_ok_some_false (a : AttemptEnv) (fs : Option Nat) :
    (downloadAttempt a fs).1 ≠ Except.ok (some false) := by
  rcases a with ⟨st, eff, exc⟩
  rcases st with e' | rs
  · simp [downloadAttempt]
  · rcases exc with _ | e
    · rcases hfs : eff.apply fs with _ | ls
      · simp [downloadAttempt, hfs]
      · by_cases hls : ls = rs
        · simp [downloadAttempt, hfs, hls]
        · simp [downloadAttempt, hfs, hls]
    · simp [downloadAttempt]

lemma downloadLoop_cons (fs : Option Nat) (a : AttemptEnv) (rest : List AttemptEnv) :
    downloadLoop fs (a :: rest) =
      match downloadAttempt a fs with
      | (.ok (some true), fs1) => ⟨.ok true, fs1, 1⟩
      | (.ok _, fs1) =>
          if rest.isEmpty then ⟨.ok false, fs1, 1⟩
          else
            let r := downloadLoop fs1 rest
            ⟨r.outcome, r.fs, r.attempts + 1⟩
      | (.error e, fs1) =>
          if rest.isEmpty then ⟨.error e, fs1, 1⟩
          else
            let r := downloadLoop fs1 rest
            ⟨r.outcome, r.fs, r.attempts + 1⟩ := rfl

lemma downloadLoop_allVerifyFail :
    ∀ (l : List AttemptEnv) (fs : Option Nat), l ≠ [] → allVerifyFail fs l = true →
      downloadLoop fs l = ⟨Except.ok false, none, l.length⟩
  | [], _, hne, _ => absurd rfl hne
  | a :: rest, fs, _, hall => by
      rcases hE : downloadAttempt a fs with ⟨r1, r2⟩
      simp only [allVerifyFail] at hall
      rw [hE] at hall
      rcases r1 with e' | v
      · simp at hall
      · rcases v with _ | b
        · have hr2 : r2 = none := by
            have h0 := downloadAttempt_ok_none_snd a fs (by rw [hE])
            rw [hE] at h0
            exact h0
          subst hr2
          rcases rest with _ | ⟨a2, rest'⟩
          · simp [downloadLoop, hE]
          · have ih := downloadLoop_allVerifyFail (a2 :: rest') none (by simp)
              (by simpa using hall)
            rw [downloadLoop_cons, hE]
            show (⟨(downloadLoop none (a2 :: rest')).outcome,
                (downloadLoop none (a2 :: rest')).fs,
                (downloadLoop none (a2 :: rest')).attempts + 1⟩ : DownloadResult)
              = ⟨Except.ok false, none, (a :: a2 :: rest').length⟩
            rw [ih]
            rfl
        · simp at hall

lemma downloadLoop_raise_last :
    ∀ (init : List AttemptEnv) (fs : Option Nat) (last : AttemptEnv) (e : PyExc),
      noSuccess fs init = true → attemptRaised last = some e →
      (downloadLoop fs (init ++ [last])).outcome = Except.error e ∧
      (downloadLoop fs (init ++ [last])).attempts = init.length + 1
  | [], fs, last, e, _, hr => by
      have h1 := downloadAttempt_raised last e fs hr
      rcases hE : downloadAttempt last fs with ⟨r1, r2⟩
      rw [hE] at h1
      subst h1
      simp [downloadLoop, hE]
  | a :: init', fs, last, e, hns, hr => by
      rcases hE : downloadAttempt a fs with ⟨r1, r2⟩
      simp only [noSuccess] at hns
      rw [hE] at hns
      have hne : (init' ++ [last]).isEmpty = false := isEmpty_append_cons _ _ _
      rcases r1 with e' | v
      · have ih := downloadLoop_raise_last init' r2 last e (by simpa using hns) hr
        simp [downloadLoop, hE, hne, ih.1, ih.2]
      · rcases v with _ | b
        · have ih := downloadLoop_raise_last init' r2 last e (by simpa using hns) hr
          simp [downloadLoop, hE, hne, ih.1, ih.2]
        · rcases b with _ | _
          · have ih := downloadLoop_raise_last init' r2 last e (by simpa using hns) hr
            simp [downloadLoop, hE, hne, ih.1, ih.2]
          · simp at hns

lemma downloadLoop_false_fs_none :
    ∀ (l : List AttemptEnv) (fs : Option Nat), l ≠ [] →
      (downloadLoop fs l).outcome = Except.ok false → (downloadLoop fs l).fs = none
  | [], _, hne, _ => absurd rfl hne
  | a :: rest, fs, _, hfalse => by
      rcases hE : downloadAttempt a fs with ⟨r1, r2⟩
      rcases r1 with e' | v
      · rcases rest with _ | ⟨a2, rest'⟩
        · simp [downloadLoop, hE] at hfalse
        · rw [downloadLoop_cons, hE] at hfalse ⊢
          have h0 : (downloadLoop r2 (a2 :: rest')).outcome = Except.ok false := hfalse
          exact downloadLoop_false_fs_none (a2 :: rest') r2 (by simp) h0
      · rcases v with _ | b
        · have hr2 : r2 = none := by
            have h0 := downloadAttempt_ok_none_snd a fs (by rw [hE])
            rw [hE] at h0
            exact h0
          subst hr2
          rcases rest with _ | ⟨a2, rest'⟩
          · simp [downloadLoop, hE]
          · rw [downloadLoop_cons, hE] at hfalse ⊢
            have h0 : (downloadLoop none (a2 :: rest')).outcome = Except.ok false := hfalse
            exact downloadLoop_false_fs_none (a2 :: rest') none (by simp) h0
        · rcases b with _ | _
          · exact absurd (by rw [hE]) (downloadAttempt_not_ok_some_false a fs)
          · simp [downloadLoop, hE] at hfalse

/-! ### Claim theorems: file transfer -/

/-- C4: `remote_file_exists` returns a plain boolean on every input —
its outer `except Exception` handler catches every modelled exception,
so no error propagates (missing path, directory path, stat error,
open error or close error all yield `false`) — and it returns `true`
exactly when opening the sub-channel succeeds, the stat succeeds and
reports a regular-file mode, and the `finally` close succeeds; in
particular `true` only if the entry exists and is a regular file. -/
theorem remote_file_exists_characterization (env : SftpEnv) :
    remote_file_exists env = true ↔
      env.openResult = none ∧ env.closeResult = none ∧
      ∃ st, env.statResult = Except.ok st ∧ S_ISREG st.st_mode = true := by
  rcases env with ⟨op, st, cl⟩
  rcases op with _ | e
  · rcases cl with _ | f
    · rcases st with e' | fstat
      · by_cases hio : isIOError e' <;>
          simp [remote_file_exists, remoteFileExistsBody, hio]
      · simp [remote_file_exists, remoteFileExistsBody]
    · rcases st with e' | fstat <;>
        simp [remote_file_exists, remoteFileExistsBody]
  · simp [remote_file_exists, remoteFileExistsBody]

/-- Witness for `remote_file_exists_characterization`: a successful
stat of a regular file (mode `0o100644`) yields `true`. -/
theorem remote_file_exists_characterization_witness :
    remote_file_exists ⟨none, Except.ok ⟨0o100644, 5⟩, none⟩ = true :=
  (remote_file_exists_characterization ⟨none, Except.ok ⟨0o100644, 5⟩, none⟩).mpr
    ⟨rfl, rfl, ⟨0o100644, 5⟩, rfl, rfl⟩

/-- C5: when the `remote_file_exists` precondition check fails,
`download_file` returns `False` at once: zero transfer attempts, no
re-stat, and the local file untouched. -/
theorem download_precondition_fastfail (existsEnv : SftpEnv)
    (attempts : List AttemptEnv) (fs : Option Nat)
    (h : remote_file_exists existsEnv = false) :
    download_file existsEnv attempts fs = ⟨Except.ok false, fs, 0⟩ := by
  simp [download_file, h]

/-- Witness for `download_precondition_fastfail`: the remote stat
raises `IOError` (missing file), so the check is false. -/
theorem download_precondition_fastfail_witness :
    download_file ⟨none, Except.error (PyExc.ioError "No such file"), none⟩
      [⟨Except.ok 100, FsEffect.write 100, none⟩] none
      = ⟨Except.ok false, none, 0⟩ :=
  download_precondition_fastfail ⟨none, Except.error (PyExc.ioError "No such file"), none⟩
    [⟨Except.ok 100, FsEffect.write 100, none⟩] none rfl

/-- C1: once the precondition check passes and `max_retries =
attempts.length ≥ 1`, the exhausted-retries outcome is asymmetric:
if every attempt ends in a verification failure (local file missing
after the transfer, or local size differing from the re-statted remote
size), the call returns `False` without raising; if no attempt before
the last passes verification and the final attempt ends in a
transfer-layer exception (SCP or any other transport error), that
exception is re-raised to the caller instead of being returned as
`False`. -/
theorem download_exhausted_asymmetry (existsEnv : SftpEnv)
    (attempts : List AttemptEnv) (fs : Option Nat)
    (hpre : remote_file_exists existsEnv = true) (hne : attempts ≠ []) :
    (allVerifyFail fs attempts = true →
        (download_file existsEnv attempts fs).outcome = Except.ok false) ∧
    (∀ init last e, attempts = init ++ [last] → noSuccess fs init = true →
        attemptRaised last = some e →
        (download_file existsEnv attempts fs).outcome = Except.error e) := by
  constructor
  · intro hall
    have h0 := downloadLoop_allVerifyFail attempts fs hne hall
    simp [download_file, hpre, h0]
  · rintro init last e rfl hns hr
    have h0 := (downloadLoop_raise_last init fs last e hns hr).1
    simp [download_file, hpre, h0]

/-- Witness for `download_exhausted_asymmetry`: two attempts, both
transferring the wrong number of bytes (50 and 60 instead of 100);
the call returns `False`. -/
theorem download_exhausted_asymmetry_witness :
    (download_file ⟨none, Except.ok ⟨0o100644, 100⟩, none⟩
      [⟨Except.ok 100, FsEffect.write 50, none⟩, ⟨Except.ok 100, FsEffect.write 60, none⟩]
      none).outcome = Except.ok false :=
  (download_exhausted_asymmetry ⟨none, Except.ok ⟨0o100644, 100⟩, none⟩
    [⟨Except.ok 100, FsEffect.write 50, none⟩, ⟨Except.ok 100, FsEffect.write 60, none⟩]
    none rfl (by simp)).1 rfl

/-- C6 counterexample: with `max_retries = 1`, a transfer that writes
50 of 100 bytes and then raises `SCPException` makes `download_file`
raise while the partial 50-byte local file is still present — the
`except` branches of the source never delete the local file, so a
failed call can retain a partial artifact, contradicting the claim's
general cleanup clause. -/
theorem download_partial_file_retained_on_raise :
    download_file ⟨none, Except.ok ⟨0o100644, 100⟩, none⟩
      [⟨Except.ok 100, FsEffect.write 50, some (PyExc.scpException "broken pipe")⟩]
      none
      = ⟨Except.error (PyExc.scpException "broken pipe"), some 50, 1⟩ := rfl

/-- C6 amended: on every `download_file` call that passes the
precondition, performs at least one attempt and RETURNS `False`, no
local file remains at `local_path` (each size-mismatched file was
deleted by `os.remove`, and a missing-file verification failure leaves
nothing); a call that instead raises a transfer-layer exception may
retain a partial local file. -/
theorem download_false_no_artifact (existsEnv : SftpEnv)
    (attempts : List AttemptEnv) (fs : Option Nat)
    (hpre : remote_file_exists existsEnv = true) (hne : attempts ≠ [])
    (hfalse : (download_file existsEnv attempts fs).outcome = Except.ok false) :
    (download_file existsEnv attempts fs).fs = none := by
  have h1 : (downloadLoop fs attempts).outcome = Except.ok false := by
    simpa [download_file, hpre] using hfalse
  have h2 := downloadLoop_false_fs_none attempts fs hne h1
  simpa [download_file, hpre] using h2

/-- Witness for `download_false_no_artifact`: a single attempt writing
10 of 200 bytes; the call returns `False` and no file remains. -/
theorem download_false_no_artifact_witness :
    (download_file ⟨none, Except.ok ⟨0o100644, 200⟩, none⟩
      [⟨Except.ok 200, FsEffect.write 10, none⟩] none).fs = none :=
  download_false_no_artifact ⟨none, Except.ok ⟨0o100644, 200⟩, none⟩
    [⟨Except.ok 200, FsEffect.write 10, none⟩] none rfl (by simp) rfl

/-- C3 amended: after exhausting retries, each operation re-raises the
last attempt's underlying exception unchanged rather than one of the
spec taxonomy's dedicated error types: `connect` re-raises the last
connection attempt's exception; `execute_command` re-raises the last
attempt's exception (for a non-zero exit status, the generic
`Exception` built from that status on line 97); `download_file`
re-raises the last attempt's transport-layer exception.  No
`ConnectionError` / `CommandError` / `TransferError` wrapper is ever
constructed by the source. -/
theorem exhausted_retries_reraise_last (closeEnv : Nat → Option PyExc) (s : SessState)
    (cpre : List (Option PyExc)) (ce : PyExc)
    (epre : List ExecOutcome) (eo : ExecOutcome) (ee : PyExc)
    (existsEnv : SftpEnv) (dinit : List AttemptEnv) (dlast : AttemptEnv) (de : PyExc)
    (fs : Option Nat) :
    ((∀ o ∈ cpre, o.isSome) →
        (connect closeEnv (cpre ++ [some ce]) s).outcome = Except.error ce) ∧
    ((∀ x ∈ epre, (execFailureExc x).isSome) → execFailureExc eo = some ee →
        (execute_command (epre ++ [eo])).outcome = Except.error ee) ∧
    (remote_file_exists existsEnv = true → noSuccess fs dinit = true →
        attemptRaised dlast = some de →
        (download_file existsEnv (dinit ++ [dlast]) fs).outcome = Except.error de) := by
  refine ⟨?_, ?_, ?_⟩
  · intro hpre
    exact (connectAux_fail_last closeEnv cpre ce 1 s [] hpre).1
  · intro hpre ho
    exact (executeLoop_fail_last epre eo ee [] hpre ho).1
  · intro hpre hns hr
    have h0 := (downloadLoop_raise_last dinit fs dlast de hns hr).1
    simp [download_file, hpre, h0]

/-- Witness for `exhausted_retries_reraise_last`: a single
`execute_command` attempt raising a transport exception; the very same
exception value propagates. -/
theorem exhausted_retries_reraise_last_witness :
    (execute_command [ExecOutcome.raises (PyExc.other "SSHException" "channel closed")]).outcome
      = Except.error (PyExc.other "SSHException" "channel closed") :=
  (exhausted_retries_reraise_last (fun _ => none) {} [] (PyExc.exception "c") []
    (ExecOutcome.raises (PyExc.other "SSHException" "channel closed"))
    (PyExc.other "SSHException" "channel closed")
    ⟨none, Except.ok ⟨0o100644, 1⟩, none⟩ [] ⟨Except.ok 1, FsEffect.keep, none⟩
    (PyExc.exception "d") none).2.1 (by simp) rfl

end Snapshot
